import Mathlib

/-!
Verification of the ProgearHiking-Demo backend authentication core.

This file gives a shallow embedding, in Lean 4, of the token-exchange /
delegated-authorization pipeline of the repository:

* `backend/app/auth/okta_auth.py`   (class `OktaAuth`)
* `backend/app/auth/token_vault.py` (class `TokenVault`)
* `backend/app/tools/inventory_tools.py` (class `InventoryTools`, scope gate)

Modelling conventions:

* JSON values (the results of `response.json()`, JWT payloads, JWKS
  documents) are modelled by the inductive type `Json`; Python `dict.get`
  becomes `Json.get` / `pyDictGetD`, and Python truthiness becomes
  `Json.pyTruthy`.  `Json.get` returns `none` both when the key is absent
  and when the receiver is not an object (the demo only calls it on
  objects).
* Timestamps (`time.time()`) are integers (`Int`); the claims at stake
  only compare timestamps, never use sub-second precision.
* `httpx` round trips are modelled by passing the upstream `Response`
  (status code plus parsed JSON body) into the function under study; a
  transport-level failure of `client.get`/`raise_for_status` is the
  `Except.error` case of the corresponding argument.
* Python exceptions become `Except PyErr`; `fastapi.HTTPException` is the
  constructor `PyErr.httpException`, and unhandled runtime errors
  (`KeyError`, `TypeError`, `AttributeError`, key-parsing failures) are
  `PyErr.runtimeError`.
* Mutable instance state (`self._jwks_cache`, `self._management_token`,
  ...) is threaded explicitly: stateful methods take the state before the
  call and return the state after it, together with a `Bool` recording
  whether an outbound network call was made.
* `uuid.uuid4()` and the RSA signing/parsing primitives are modelled by
  oracle parameters (`uuidStr`, `parsesAsJwk`, `decode`): the theorems
  below quantify over them, so nothing is assumed about cryptography
  beyond what the claim itself states.
-/

namespace Progear

/-! ## A model of parsed JSON values (Python objects) -/

inductive Json where
  | null
  | bool (b : Bool)
  | num (n : Int)
  | str (s : String)
  | arr (elems : List Json)
  | obj (fields : List (String × Json))

mutual

/-- Structural equality of JSON values, modelling Python `==` on the
values produced by `response.json()`. -/
def Json.beq : Json → Json → Bool
  | .null, .null => true
  | .bool a, .bool b => a == b
  | .num a, .num b => a == b
  | .str a, .str b => a == b
  | .arr a, .arr b => Json.beqList a b
  | .obj a, .obj b => Json.beqFields a b
  | _, _ => false

def Json.beqList : List Json → List Json → Bool
  | [], [] => true
  | a :: as, b :: bs => Json.beq a b && Json.beqList as bs
  | _, _ => false

def Json.beqFields : List (String × Json) → List (String × Json) → Bool
  | [], [] => true
  | (k, v) :: as, (l, w) :: bs => k == l && Json.beq v w && Json.beqFields as bs
  | _, _ => false

end

instance : BEq Json := ⟨Json.beq⟩

/-- Field lookup in a JSON object (Python dict keys are unique, so
first-match lookup in the association list is faithful). -/
def Json.lookupField : List (String × Json) → String → Option Json
  | [], _ => none
  | (k, v) :: rest, key => if k == key then some v else Json.lookupField rest key

/-- Python `d.get(key)`: `none` when the key is absent.  Also `none` when
the receiver is not an object (the repository only calls `.get` on
dicts). -/
def Json.get : Json → String → Option Json
  | .obj fields, key => Json.lookupField fields key
  | _, _ => none

/-- Python `d.get(key, default)` where the default is itself a possibly
missing value (e.g. `error.get("error_description", error.get("error"))`
in `okta_auth.py`). -/
def pyDictGetD (j : Json) (key : String) (default : Option Json) : Option Json :=
  match j.get key with
  | some v => some v
  | none => default

/-- Python `d.get(key, default)` with an always-present default. -/
def pyDictGet (j : Json) (key : String) (default : Json) : Json :=
  match j.get key with
  | some v => v
  | none => default

/-- Python truthiness of a JSON value: `None`, `False`, `0`, `""`, `[]`
and the empty object are falsy. -/
def Json.pyTruthy : Json → Bool
  | .null => false
  | .bool b => b
  | .num n => n != 0
  | .str s => s != ""
  | .arr elems => !elems.isEmpty
  | .obj fields => !fields.isEmpty

/-- Python truthiness of a value that may also be absent (`None`). -/
def pyTruthyOpt : Option Json → Bool
  | none => false
  | some j => j.pyTruthy

mutual

/-- Python `str()` of a parsed JSON value, as interpolated by an f-string
(`str(None) = "None"`, `str(True) = "True"`, ...).  For containers the
rendering keeps element order and separators; the repr-style quoting of
nested strings is not reproduced (no claim depends on it). -/
def Json.pyStr : Json → String
  | .null => "None"
  | .bool true => "True"
  | .bool false => "False"
  | .num n => toString n
  | .str s => s
  | .arr elems => "[" ++ Json.pyStrElems elems ++ "]"
  | .obj fields => "\x7b" ++ Json.pyStrFields fields ++ "\x7d"

def Json.pyStrElems : List Json → String
  | [] => ""
  | [x] => Json.pyStr x
  | x :: xs => Json.pyStr x ++ ", " ++ Json.pyStrElems xs

def Json.pyStrFields : List (String × Json) → String
  | [] => ""
  | [(k, v)] => k ++ ": " ++ Json.pyStr v
  | (k, v) :: xs => k ++ ": " ++ Json.pyStr v ++ ", " ++ Json.pyStrFields xs

end

/-- f-string interpolation of a possibly absent value: `f"... \x7bx\x7d"`
renders a missing value (`None`) as `"None"`. -/
def pyFormat : Option Json → String
  | none => "None"
  | some j => j.pyStr

/-! ## Upstream HTTP responses and Python exceptions -/

/-- An upstream HTTP response after `response.json()` succeeded: status
code plus parsed JSON body. -/
structure Response where
  status : Nat
  body : Json

/-- Python exceptions observable from the auth core.  `httpException` is
`fastapi.HTTPException(status_code, detail)`; `networkError` stands for
`httpx` transport errors / `raise_for_status`; `runtimeError` stands for
unhandled `KeyError` / `TypeError` / `AttributeError` / key-material
parsing failures. -/
inductive PyErr where
  | httpException (statusCode : Nat) (detail : String)
  | networkError
  | runtimeError
  deriving DecidableEq, Repr

/-- The configuration fields of `app/core/config.py :: Settings` used by
the auth core, with the repository defaults.  `wlp_private_key` defaults
to the empty string, and the code tests it with Python truthiness. -/
structure Settings where
  okta_domain : String := "qa-aiagentsproducttc1.trexcloud.com"
  okta_client_id : String := "0oa8zcwqfrsi1Mi5Z0g7"
  wlp_client_id : String := "wlp8zcxwhpsu387C20g7"
  wlp_private_key : String := ""
  auth0_domain : String := "dev-4i2mhp2tnupmhbik.us.auth0.com"
  salesforce_instance_url : String :=
    "https://orgfarm-3592c48138-dev-ed.develop.my.salesforce.com"
  salesforce_connection_name : String := "salesforce"

/-! ## `OktaAuth` (okta_auth.py) -/

/-- The mutable state of the `OktaAuth` singleton, as set by
`OktaAuth.__init__`: `self._jwks_cache = None`, `self._jwks_cache_time = 0`,
`self._cache_ttl = 3600`. -/
structure OktaAuthState where
  jwksCache : Option Json := none
  jwksCacheTime : Int := 0
  cacheTtl : Int := 3600

/-- `OktaAuth.get_jwks`.  `now` is `time.time()`; `fetch` is the outcome
of `client.get(jwks_uri)` + `raise_for_status()` + `.json()` if the
network were consulted.  Returns (result, state after the call, whether
an outbound network call was made).

Source: cache hit iff `self._jwks_cache` is truthy and
`current_time - self._jwks_cache_time < self._cache_ttl`; otherwise the
keys are re-fetched, a fetch failure propagates with the cache state
unchanged, and a fetched document replaces the cache. -/
def get_jwks (st : OktaAuthState) (now : Int) (fetch : Except PyErr Json) :
    Except PyErr Json × OktaAuthState × Bool :=
  if pyTruthyOpt st.jwksCache && decide (now - st.jwksCacheTime < st.cacheTtl) then
    (.ok ((st.jwksCache).getD .null), st, false)
  else
    match fetch with
    | .error e => (.error e, st, true)
    | .ok j =>
        (.ok j, { st with jwksCache := some j, jwksCacheTime := now }, true)

/-- An inbound identity token, reduced to what `validate_id_token`
inspects before signature verification: its unverified header
(`jwt.get_unverified_header`). -/
structure Token where
  header : Json

/-- Outcome of `RSAAlgorithm.from_jwk` + `jwt.decode(token, key, ...)`:
either the verified payload, or one of the PyJWT exceptions the source
catches (`jwt.ExpiredSignatureError`, `jwt.InvalidTokenError` with its
message), or an exception the `except` clauses do not catch. -/
inductive DecodeOutcome where
  | ok (payload : Json)
  | expiredSignature
  | invalidToken (msg : String)
  | uncaughtError

/-- The `UserInfo` record built from the verified payload (raw claim
values, before pydantic validation). -/
structure UserInfo where
  sub : Option Json
  email : Json
  name : Option Json
  given_name : Option Json
  family_name : Option Json
  groups : Json

/-- The `UserInfo(...)` construction on the success path of
`validate_id_token`. -/
def userInfoOfPayload (payload : Json) : UserInfo :=
  { sub := payload.get "sub"
    email := pyDictGet payload "email" (.str "")
    name := payload.get "name"
    given_name := payload.get "given_name"
    family_name := payload.get "family_name"
    groups := pyDictGet payload "groups" (.arr []) }

/-- The iterable `jwks.get("keys", [])` of `validate_id_token` (`[]`
when the field is absent; the JWKS document's `keys` field is a JSON
array). -/
def jwksKeyList (jwks : Json) : List Json :=
  match jwks.get "keys" with
  | some (.arr keys) => keys
  | _ => []

/-- The key-selection loop of `validate_id_token`: the first key of
`jwks.get("keys", [])` whose `kid` equals the token header's `kid`. -/
def findRsaKey (jwks : Json) (kid : Option Json) : Option Json :=
  (jwksKeyList jwks).find? (fun key => key.get "kid" == kid)

/-- `OktaAuth.validate_id_token`.  `jwksResult` is the outcome of
`await self.get_jwks()`; `decode` is the oracle for
`RSAAlgorithm.from_jwk` + `jwt.decode` applied to the selected key.

The body runs inside `try/except`: the two `except` clauses catch only
`jwt.ExpiredSignatureError` and `jwt.InvalidTokenError`, so the
`HTTPException(401, "Invalid token: key not found")` raised when no key
matches — and any `HTTPException` from `get_jwks` — propagates
unchanged. -/
def validate_id_token (jwksResult : Except PyErr Json) (token : Token)
    (decode : Json → DecodeOutcome) : Except PyErr UserInfo :=
  match jwksResult with
  | .error e => .error e
  | .ok jwks =>
    let kid := token.header.get "kid"
    match findRsaKey jwks kid with
    | none => .error (.httpException 401 "Invalid token: key not found")
    | some rsaKey =>
      match decode rsaKey with
      | .ok payload => .ok (userInfoOfPayload payload)
      | .expiredSignature => .error (.httpException 401 "Token has expired")
      | .invalidToken msg => .error (.httpException 401 ("Invalid token: " ++ msg))
      | .uncaughtError => .error .runtimeError

/-- The default audience of `generate_wlp_assertion`:
`f"https://\x7bsettings.okta_domain\x7d/oauth2/v1/token"`. -/
def orgTokenEndpoint (st : Settings) : String :=
  "https://" ++ st.okta_domain ++ "/oauth2/v1/token"

/-- The line `aud = audience or f"https://\x7bokta_domain\x7d/oauth2/v1/token"`
of `generate_wlp_assertion`: a `None` or empty (falsy) audience selects
the org token endpoint. -/
def resolveAudience (st : Settings) (audience : Option String) : String :=
  match audience with
  | some a => if a == "" then orgTokenEndpoint st else a
  | none => orgTokenEndpoint st

/-- The claim set of the signed client assertion (the `payload` dict of
`generate_wlp_assertion`; `jwt.encode` signs exactly these claims). -/
structure AssertionClaims where
  iss : String
  sub : String
  aud : String
  iat : Int
  exp : Int
  jti : String
  deriving DecidableEq, Repr

/-- `OktaAuth.generate_wlp_assertion`.  `parsesAsJwk` is the oracle for
`json.loads(settings.wlp_private_key)` + `RSAAlgorithm.from_jwk`
succeeding; `now` is `int(time.time())`; `uuidStr` is the value of
`str(uuid.uuid4())` drawn by this call.  The modelled output is the
signed claim set. -/
def generate_wlp_assertion (parsesAsJwk : String → Bool) (st : Settings)
    (now : Int) (uuidStr : String) (audience : Option String) :
    Except PyErr AssertionClaims :=
  if st.wlp_private_key == "" then
    .error (.httpException 500 "WLP private key not configured")
  else
    let aud := resolveAudience st audience
    if parsesAsJwk st.wlp_private_key then
      .ok { iss := st.wlp_client_id, sub := st.wlp_client_id, aud := aud,
            iat := now, exp := now + 300, jti := uuidStr }
    else
      .error .runtimeError

/-- `OktaAuth.exchange_for_id_jag`.  `resp` is the org authorization
server's response to the jwt-bearer grant POST.  On a non-200 status the
source raises `HTTPException(401, f"ID-JAG exchange failed: ...")` with
the upstream `error_description` (falling back to `error`); on 200 it
returns `data.get("id_token")` without checking presence. -/
def exchange_for_id_jag (parsesAsJwk : String → Bool) (st : Settings)
    (now : Int) (uuidStr : String) (resp : Response) :
    Except PyErr (Option Json) :=
  match generate_wlp_assertion parsesAsJwk st now uuidStr none with
  | .error e => .error e
  | .ok _clientAssertion =>
    if resp.status ≠ 200 then
      .error (.httpException 401
        ("ID-JAG exchange failed: " ++
          pyFormat (pyDictGetD resp.body "error_description" (resp.body.get "error"))))
    else
      .ok (resp.body.get "id_token")

/-- The dict returned by `exchange_id_jag_for_token` (absent keys are
`none`). -/
structure ExchangeResult where
  success : Bool
  error : Option Json := none
  error_description : Option Json := none
  access_token : Option Json := none
  token_type : Option Json := none
  expires_in : Option Json := none
  scope : Option Json := none

/-- The token endpoint of a custom authorization server:
`f"https://\x7bokta_domain\x7d/oauth2/\x7bauth_server_id\x7d/v1/token"`. -/
def customTokenEndpoint (st : Settings) (authServerId : String) : String :=
  "https://" ++ st.okta_domain ++ "/oauth2/" ++ authServerId ++ "/v1/token"

/-- `OktaAuth.exchange_id_jag_for_token`.  `resp` is the custom
authorization server's response to the token-exchange POST.  On a
non-200 status the source does not raise: it returns the structured
denial dict; on 200 it returns the structured success dict with
`token_type` defaulting to `"Bearer"`. -/
def exchange_id_jag_for_token (parsesAsJwk : String → Bool) (st : Settings)
    (now : Int) (uuidStr : String) (authServerId : String)
    (_scopes : List String) (resp : Response) : Except PyErr ExchangeResult :=
  match generate_wlp_assertion parsesAsJwk st now uuidStr
      (some (customTokenEndpoint st authServerId)) with
  | .error e => .error e
  | .ok _clientAssertion =>
    if resp.status ≠ 200 then
      .ok { success := false
            error := resp.body.get "error"
            error_description := resp.body.get "error_description" }
    else
      .ok { success := true
            access_token := resp.body.get "access_token"
            token_type := pyDictGetD resp.body "token_type" (some (.str "Bearer"))
            expires_in := resp.body.get "expires_in"
            scope := resp.body.get "scope" }

/-! ## `TokenVault` (token_vault.py) -/

/-- The mutable state of the `TokenVault` singleton, as set by
`TokenVault.__init__`: `self._management_token = None`,
`self._token_expiry = 0`. -/
structure VaultState where
  managementToken : Option Json := none
  tokenExpiry : Int := 0

/-- `TokenVault.get_management_token`.  `now` is `time.time()`; `resp`
is the Auth0 response to the client-credentials POST.  Returns (result,
state after the call, whether an outbound network call was made).

Source: cache hit iff `self._management_token` is truthy and
`time.time() < self._token_expiry`.  On fetch: non-200 raises
`HTTPException(500, ...)`; on 200, `data["access_token"]` (a `KeyError`
when absent) is stored, then the expiry is set to
`time.time() + data.get("expires_in", 86400) - 60` (a `TypeError` when
`expires_in` is non-numeric, after the token was already stored). -/
def get_management_token (st : VaultState) (now : Int) (resp : Response) :
    Except PyErr Json × VaultState × Bool :=
  if pyTruthyOpt st.managementToken && decide (now < st.tokenExpiry) then
    (.ok ((st.managementToken).getD .null), st, false)
  else
    if resp.status ≠ 200 then
      (.error (.httpException 500 "Failed to get Auth0 management token"), st, true)
    else
      match resp.body.get "access_token" with
      | none => (.error .runtimeError, st, true)
      | some tok =>
        match pyDictGetD resp.body "expires_in" (some (.num 86400)) with
        | some (.num n) =>
            (.ok tok, { managementToken := some tok, tokenExpiry := now + n - 60 }, true)
        | _ => (.error .runtimeError, { st with managementToken := some tok }, true)

/-- The first line of `get_salesforce_token`:
`token = vault_token or await self.get_management_token()`.  A truthy
`vault_token` short-circuits; otherwise the management token is fetched
(and its `HTTPException` propagates).  Returns (outcome, vault state
after the step, whether a network call was made). -/
def vaultTokenStep (st : VaultState) (now : Int) (vaultToken : Option String)
    (mgmtResp : Response) : Except PyErr Unit × VaultState × Bool :=
  match vaultToken with
  | some t =>
    if t == "" then
      let (r, st', net) := get_management_token st now mgmtResp
      (r.map (fun _ => ()), st', net)
    else
      (.ok (), st, false)
  | none =>
    let (r, st', net) := get_management_token st now mgmtResp
    (r.map (fun _ => ()), st', net)

/-- The dict returned by `get_salesforce_token` (absent keys are
`none`). -/
structure SalesforceResult where
  success : Bool
  error : Option String := none
  error_description : Option String := none
  access_token : Option Json := none
  refresh_token : Option Json := none
  instance_url : Option String := none

/-- The iterable `user_data.get("identities", [])` of
`get_salesforce_token` (`[]` when the field is absent; Auth0 returns a
JSON array). -/
def userIdentities (body : Json) : List Json :=
  match body.get "identities" with
  | some (.arr xs) => xs
  | _ => []

/-- The loop test of `get_salesforce_token`:
`identity.get("provider") == settings.salesforce_connection_name`. -/
def isSalesforceIdentity (st : Settings) (identity : Json) : Bool :=
  identity.get "provider" == some (.str st.salesforce_connection_name)

/-- The body of `get_salesforce_token` after the vault token is
resolved: the user lookup, identity scan and token extraction.
`userResp` is the Auth0 `/api/v2/users/\x7bid\x7d` response.

Source order: non-200 → `user_not_found`; else scan
`user_data.get("identities", [])` for the first identity whose
`provider` equals `settings.salesforce_connection_name`; none →
`salesforce_not_connected`; falsy `access_token` → `no_token`; else the
success dict carrying the identity's tokens. -/
def salesforceLookup (st : Settings) (userResp : Response) : SalesforceResult :=
  if userResp.status ≠ 200 then
    { success := false
      error := some "user_not_found"
      error_description := some "Could not find user in Auth0" }
  else
    match (userIdentities userResp.body).find? (isSalesforceIdentity st) with
    | none =>
      { success := false
        error := some "salesforce_not_connected"
        error_description := some "User has not connected their Salesforce account" }
    | some salesforceIdentity =>
      let accessToken := salesforceIdentity.get "access_token"
      let refreshToken := salesforceIdentity.get "refresh_token"
      if !pyTruthyOpt accessToken then
        { success := false
          error := some "no_token"
          error_description := some "No Salesforce token available" }
      else
        { success := true
          access_token := accessToken
          refresh_token := refreshToken
          instance_url := some st.salesforce_instance_url }

/-- `TokenVault.get_salesforce_token`.  Resolves the vault token (which
may raise, propagating), then classifies the user-lookup response; every
outcome after token resolution is a returned dict, never an
exception. -/
def get_salesforce_token (cfg : Settings) (st : VaultState) (now : Int)
    (vaultToken : Option String) (mgmtResp : Response) (userResp : Response) :
    Except PyErr SalesforceResult × VaultState :=
  match vaultTokenStep st now vaultToken mgmtResp with
  | (.error e, st', _) => (.error e, st')
  | (.ok _, st', _) => (.ok (salesforceLookup cfg userResp), st')

/-- `TokenVault.get_user_id_from_okta_sub`.  Fetches the management
token (propagating its failure), then performs the user search;
`searchResp` is the Auth0 `/api/v2/users?q=...` response.

Source: non-200 → `None`; `if users and len(users) > 0` →
`users[0].get("user_id")`; otherwise `None`.  A truthy non-list body
would fail at `len`/`[0]`/`.get` with an unhandled runtime error. -/
def get_user_id_from_okta_sub (st : VaultState) (now : Int)
    (mgmtResp : Response) (searchResp : Response) :
    Except PyErr (Option Json) × VaultState :=
  match get_management_token st now mgmtResp with
  | (.error e, st', _) => (.error e, st')
  | (.ok _, st', _) =>
    if searchResp.status ≠ 200 then
      (.ok none, st')
    else
      match searchResp.body with
      | .arr [] => (.ok none, st')
      | .arr (u :: _) => (.ok (u.get "user_id"), st')
      | j => if j.pyTruthy then (.error .runtimeError, st') else (.ok none, st')

/-! ## `InventoryTools` scope gate (inventory_tools.py) -/

/-- The default scope list of `InventoryTools.__init__`. -/
def defaultInventoryScopes : List String :=
  ["inventory:read", "inventory:write", "inventory:alert"]

/-- `InventoryTools.__init__`:
`self.user_scopes = user_scopes or [...]` — a `None` or empty (falsy)
argument selects the full default scope list. -/
def initUserScopes : Option (List String) → List String
  | none => defaultInventoryScopes
  | some l => if l.isEmpty then defaultInventoryScopes else l

/-- `InventoryTools._has_scope`: `required_scope in self.user_scopes`. -/
def has_scope (userScopes : List String) (requiredScope : String) : Bool :=
  userScopes.contains requiredScope

/-- The scope gate of `InventoryTools._execute_tool`: the invocation is
denied iff `required_scope` is truthy (given and non-empty) and
`_has_scope` fails. -/
def scopeDenied (userScopes : List String) (requiredScope : Option String) : Bool :=
  match requiredScope with
  | none => false
  | some r => if r == "" then false else !has_scope userScopes r

/-- The `required_scope` values passed by the tool methods of
`InventoryTools` (`check_stock`, `update_stock`, `get_alerts`, ...). -/
def inventoryToolRequiredScopes : List String :=
  ["inventory:read", "inventory:write", "inventory:alert"]

/-! ## Concrete fixtures used by the witnesses below -/

/-- A configuration with a (parseable) workload private key installed. -/
def configuredSettings : Settings := { wlp_private_key := "jwk-material" }

/-- A key-parsing oracle under which the configured key parses. -/
def alwaysParses : String → Bool := fun _ => true

/-- A concrete upstream denial body. -/
def denialBody : Json :=
  .obj [("error", .str "access_denied"), ("error_description", .str "scope not granted")]

/-- A concrete upstream token-grant body without a `token_type` field. -/
def grantBody : Json :=
  .obj [("access_token", .str "at-1"), ("expires_in", .num 3600),
        ("scope", .str "inventory:read")]

/-- A non-empty (truthy) JWKS document. -/
def jwksDoc : Json := .obj [("keys", .arr [.obj [("kid", .str "kid-a")]])]

/-- A 200 client-credentials grant whose `access_token` is the empty
string (falsy), with a one-hour `expires_in`. -/
def mgmtEmptyTokenResp : Response :=
  ⟨200, .obj [("access_token", .str ""), ("expires_in", .num 3600)]⟩

/-- A vault state holding a valid (truthy, unexpired at `now = 0`)
management token, so the credential step is a cache hit. -/
def warmVaultState : VaultState :=
  { managementToken := some (.str "mgmt-tok"), tokenExpiry := 100 }

/-- A linked-identity entry for a connected Salesforce account. -/
def sfIdentityWithToken : Json :=
  .obj [("provider", .str "salesforce"), ("user_id", .str "sf-user"),
        ("access_token", .str "sf-at"), ("refresh_token", .str "sf-rt")]

end Progear

namespace Progear

/-! ## C1 / C2 / C9: the two exchange operations -/

/-- C1: for every upstream response with a non-200 status,
`exchange_id_jag_for_token` does not throw — it returns the structured
denial dict `success = false` with the upstream `error` and
`error_description`; and for every 200 response it returns the
structured success dict with `token_type` defaulting to `"Bearer"`. -/
theorem exchange_id_jag_for_token_structured
    (parsesAsJwk : String → Bool) (st : Settings) (now : Int) (uuidStr : String)
    (authServerId : String) (scopes : List String) (resp : Response)
    (hkey : st.wlp_private_key ≠ "")
    (hparse : parsesAsJwk st.wlp_private_key = true) :
    (resp.status ≠ 200 →
      exchange_id_jag_for_token parsesAsJwk st now uuidStr authServerId scopes resp =
        .ok { success := false
              error := resp.body.get "error"
              error_description := resp.body.get "error_description" })
    ∧ (resp.status = 200 →
      exchange_id_jag_for_token parsesAsJwk st now uuidStr authServerId scopes resp =
        .ok { success := true
              access_token := resp.body.get "access_token"
              token_type := pyDictGetD resp.body "token_type" (some (.str "Bearer"))
              expires_in := resp.body.get "expires_in"
              scope := resp.body.get "scope" })
    ∧ (resp.status = 200 → resp.body.get "token_type" = none →
      exchange_id_jag_for_token parsesAsJwk st now uuidStr authServerId scopes resp =
        .ok { success := true
              access_token := resp.body.get "access_token"
              token_type := some (.str "Bearer")
              expires_in := resp.body.get "expires_in"
              scope := resp.body.get "scope" }) := by
  have hkeyb : (st.wlp_private_key == "") = false := by
    simpa using hkey
  refine ⟨?_, ?_, ?_⟩
  · intro hstatus
    simp [exchange_id_jag_for_token, generate_wlp_assertion, hkeyb, hparse, hstatus]
  · intro hstatus
    simp [exchange_id_jag_for_token, generate_wlp_assertion, hkeyb, hparse, hstatus]
  · intro hstatus hmissing
    simp [exchange_id_jag_for_token, generate_wlp_assertion, hkeyb, hparse, hstatus,
      pyDictGetD, hmissing]

/-- Witness for C1 at concrete inputs: a 403 denial and a 200 grant. -/
theorem exchange_id_jag_for_token_structured_witness :
    exchange_id_jag_for_token alwaysParses configuredSettings 0 "uuid-1" "inv-as-1"
        ["inventory:read"] ⟨403, denialBody⟩ =
      .ok { success := false, error := some (.str "access_denied"),
            error_description := some (.str "scope not granted") }
    ∧ exchange_id_jag_for_token alwaysParses configuredSettings 0 "uuid-1" "inv-as-1"
        ["inventory:read"] ⟨200, grantBody⟩ =
      .ok { success := true, access_token := some (.str "at-1"),
            token_type := some (.str "Bearer"),
            expires_in := some (.num 3600), scope := some (.str "inventory:read") } := by
  have h := exchange_id_jag_for_token_structured alwaysParses configuredSettings 0 "uuid-1"
    "inv-as-1" ["inventory:read"]
  exact ⟨(h ⟨403, denialBody⟩ (by decide) rfl).1 (by decide),
         (h ⟨200, grantBody⟩ (by decide) rfl).2.2 rfl rfl⟩

end Progear

namespace Progear

/-- C2: for every upstream response with a non-200 status,
`exchange_for_id_jag` raises an `HTTPException` carrying the upstream
`error_description` (falling back to the upstream `error` code) and
never returns a value — asymmetric to `exchange_id_jag_for_token`. -/
theorem exchange_for_id_jag_non200_raises
    (parsesAsJwk : String → Bool) (st : Settings) (now : Int) (uuidStr : String)
    (resp : Response)
    (hkey : st.wlp_private_key ≠ "")
    (hparse : parsesAsJwk st.wlp_private_key = true)
    (hstatus : resp.status ≠ 200) :
    exchange_for_id_jag parsesAsJwk st now uuidStr resp =
      .error (.httpException 401 ("ID-JAG exchange failed: " ++
        pyFormat (pyDictGetD resp.body "error_description" (resp.body.get "error"))))
    ∧ (∀ d, resp.body.get "error_description" = some (.str d) →
        exchange_for_id_jag parsesAsJwk st now uuidStr resp =
          .error (.httpException 401 ("ID-JAG exchange failed: " ++ d)))
    ∧ (∀ d, resp.body.get "error_description" = none →
        resp.body.get "error" = some (.str d) →
        exchange_for_id_jag parsesAsJwk st now uuidStr resp =
          .error (.httpException 401 ("ID-JAG exchange failed: " ++ d)))
    ∧ (∀ r, exchange_for_id_jag parsesAsJwk st now uuidStr resp ≠ .ok r) := by
  have hkeyb : (st.wlp_private_key == "") = false := by
    simpa using hkey
  have hmain : exchange_for_id_jag parsesAsJwk st now uuidStr resp =
      .error (.httpException 401 ("ID-JAG exchange failed: " ++
        pyFormat (pyDictGetD resp.body "error_description" (resp.body.get "error")))) := by
    simp [exchange_for_id_jag, generate_wlp_assertion, hkeyb, hparse, hstatus]
  refine ⟨hmain, ?_, ?_, ?_⟩
  · intro d hd
    rw [hmain]
    simp [pyDictGetD, hd, pyFormat, Json.pyStr]
  · intro d hd he
    rw [hmain]
    simp [pyDictGetD, hd, he, pyFormat, Json.pyStr]
  · intro r hr
    rw [hmain] at hr
    exact Except.noConfusion hr

/-- Witness for C2 at a concrete 401 upstream denial. -/
theorem exchange_for_id_jag_non200_raises_witness :
    exchange_for_id_jag alwaysParses configuredSettings 0 "uuid-2" ⟨401, denialBody⟩ =
      .error (.httpException 401 "ID-JAG exchange failed: scope not granted") := by
  exact (exchange_for_id_jag_non200_raises alwaysParses configuredSettings 0 "uuid-2"
    ⟨401, denialBody⟩ (by decide) rfl (by decide)).2.1 "scope not granted" rfl

/-- C9: if the org authorization server answers `exchange_for_id_jag`
with HTTP 200 but the body has no `id_token` field, the operation
returns `None` as the assertion token instead of raising. -/
theorem exchange_for_id_jag_200_missing_id_token
    (parsesAsJwk : String → Bool) (st : Settings) (now : Int) (uuidStr : String)
    (resp : Response)
    (hkey : st.wlp_private_key ≠ "")
    (hparse : parsesAsJwk st.wlp_private_key = true)
    (hstatus : resp.status = 200)
    (hmissing : resp.body.get "id_token" = none) :
    exchange_for_id_jag parsesAsJwk st now uuidStr resp = .ok none := by
  have hkeyb : (st.wlp_private_key == "") = false := by
    simpa using hkey
  simp [exchange_for_id_jag, generate_wlp_assertion, hkeyb, hparse, hstatus, hmissing]

/-- Witness for C9: a 200 grant body that carries an `access_token` but
no `id_token`. -/
theorem exchange_for_id_jag_200_missing_id_token_witness :
    exchange_for_id_jag alwaysParses configuredSettings 0 "uuid-3" ⟨200, grantBody⟩ =
      .ok none := by
  exact exchange_for_id_jag_200_missing_id_token alwaysParses configuredSettings 0 "uuid-3"
    ⟨200, grantBody⟩ (by decide) rfl rfl rfl

end Progear

namespace Progear

/-! ## C3: key lookup failure in `validate_id_token` -/

/-- C3: for every identity token whose header `kid` matches no key of
the cached JWKS key set, `validate_id_token` fails with exactly
`HTTPException(401, "Invalid token: key not found")` — for every
possible outcome of the downstream signature/issuer/audience/expiry
verification, since the key lookup short-circuits before `jwt.decode`
runs, and the surrounding `except` clauses (which catch only PyJWT
errors) pass the `HTTPException` through unchanged. -/
theorem validate_id_token_key_not_found (jwks : Json) (token : Token)
    (decode : Json → DecodeOutcome)
    (hmiss : ∀ key ∈ jwksKeyList jwks,
      (key.get "kid" == token.header.get "kid") = false) :
    validate_id_token (.ok jwks) token decode =
      .error (.httpException 401 "Invalid token: key not found") := by
  have hfind : findRsaKey jwks (token.header.get "kid") = none := by
    unfold findRsaKey
    rw [List.find?_eq_none]
    intro key hk
    simp [hmiss key hk]
  simp [validate_id_token, hfind]

/-- Witness for C3: a single-key key set with `kid = "kid-a"`, a token
header with `kid = "kid-b"`, and a decode oracle that would crash if it
were ever consulted. -/
theorem validate_id_token_key_not_found_witness :
    validate_id_token
      (.ok (.obj [("keys", .arr [.obj [("kid", .str "kid-a")]])]))
      ⟨.obj [("kid", .str "kid-b")]⟩ (fun _ => .uncaughtError) =
      .error (.httpException 401 "Invalid token: key not found") := by
  refine validate_id_token_key_not_found
    (.obj [("keys", .arr [.obj [("kid", .str "kid-a")]])])
    ⟨.obj [("kid", .str "kid-b")]⟩ (fun _ => .uncaughtError) ?_
  have h : jwksKeyList (.obj [("keys", .arr [.obj [("kid", .str "kid-a")]])]) =
      [.obj [("kid", .str "kid-a")]] := rfl
  rw [h]
  intro key hk
  rw [List.mem_singleton] at hk
  subst hk
  rfl

/-! ## C4: the minted client assertion -/

/-- C4: `generate_wlp_assertion` fails with
`HTTPException(500, "WLP private key not configured")` when no workload
private key is configured; otherwise (for a parseable key) it produces a
claim set with issuer = subject = the workload client id, audience = the
caller-supplied target or by default the org token endpoint, expiry =
issued-at + 300 seconds, and the freshly drawn `uuid4` value as `jti` —
so two calls at the same instant whose uuid draws differ yield
assertions with different `jti` values. -/
theorem generate_wlp_assertion_spec
    (parsesAsJwk : String → Bool) (st : Settings) (now : Int) (u₁ u₂ : String)
    (audience : Option String) :
    (st.wlp_private_key = "" →
      generate_wlp_assertion parsesAsJwk st now u₁ audience =
        .error (.httpException 500 "WLP private key not configured"))
    ∧ (st.wlp_private_key ≠ "" → parsesAsJwk st.wlp_private_key = true →
      generate_wlp_assertion parsesAsJwk st now u₁ audience =
        .ok { iss := st.wlp_client_id, sub := st.wlp_client_id
              aud := resolveAudience st audience
              iat := now, exp := now + 300, jti := u₁ })
    ∧ (audience = none → resolveAudience st audience = orgTokenEndpoint st)
    ∧ (∀ a, audience = some a → a ≠ "" → resolveAudience st audience = a)
    ∧ (st.wlp_private_key ≠ "" → parsesAsJwk st.wlp_private_key = true → u₁ ≠ u₂ →
      ∀ c₁ c₂, generate_wlp_assertion parsesAsJwk st now u₁ audience = .ok c₁ →
        generate_wlp_assertion parsesAsJwk st now u₂ audience = .ok c₂ →
        c₁.jti ≠ c₂.jti) := by
  refine ⟨?_, ?_, ?_, ?_, ?_⟩
  · intro hkey
    simp [generate_wlp_assertion, hkey]
  · intro hkey hparse
    have hkeyb : (st.wlp_private_key == "") = false := by simpa using hkey
    simp [generate_wlp_assertion, hkeyb, hparse]
  · intro ha
    simp [resolveAudience, ha]
  · intro a ha hne
    have hb : (a == "") = false := by simpa using hne
    simp [resolveAudience, ha, hb]
  · intro hkey hparse huu c₁ c₂ h₁ h₂
    have hkeyb : (st.wlp_private_key == "") = false := by simpa using hkey
    simp [generate_wlp_assertion, hkeyb, hparse] at h₁ h₂
    rw [← h₁, ← h₂]
    simpa using huu

/-- Witness for C4: an unconfigured key fails; a configured key at one
instant with two distinct uuid draws yields the documented claim set
twice, with distinct `jti` values. -/
theorem generate_wlp_assertion_spec_witness :
    generate_wlp_assertion alwaysParses {} 17 "uuid-a" none =
      .error (.httpException 500 "WLP private key not configured")
    ∧ generate_wlp_assertion alwaysParses configuredSettings 17 "uuid-a" none =
      .ok { iss := configuredSettings.wlp_client_id
            sub := configuredSettings.wlp_client_id
            aud := orgTokenEndpoint configuredSettings
            iat := 17, exp := 317, jti := "uuid-a" }
    ∧ ∀ c₁ c₂, generate_wlp_assertion alwaysParses configuredSettings 17 "uuid-a" none = .ok c₁ →
        generate_wlp_assertion alwaysParses configuredSettings 17 "uuid-b" none = .ok c₂ →
        c₁.jti ≠ c₂.jti := by
  refine ⟨?_, ?_, ?_⟩
  · exact (generate_wlp_assertion_spec alwaysParses {} 17 "uuid-a" "uuid-b" none).1 rfl
  · have h := (generate_wlp_assertion_spec alwaysParses configuredSettings 17 "uuid-a"
      "uuid-b" none).2.1 (by decide) rfl
    simpa [resolveAudience] using h
  · exact (generate_wlp_assertion_spec alwaysParses configuredSettings 17 "uuid-a"
      "uuid-b" none).2.2.2.2 (by decide) rfl (by decide)

end Progear

namespace Progear

/-! ## C5: the JWKS cache -/

/-- Counterexample to C5 as stated: after a successful fetch whose JSON
document is the empty object (HTTP 200, `raise_for_status` passes), a
call one second later — well within the 1-hour TTL of the last
successful fetch — performs another outbound network call, because
`self._jwks_cache` is falsy and the `if self._jwks_cache and ...` test
treats it as a cache miss. -/
theorem get_jwks_within_ttl_counterexample :
    (get_jwks {} 0 (.ok (.obj []))).1 = .ok (.obj [])
    ∧ (get_jwks {} 0 (.ok (.obj []))).2.2 = true
    ∧ (get_jwks {} 0 (.ok (.obj []))).2.1.jwksCache = some (.obj [])
    ∧ ((1 : Int) - (get_jwks {} 0 (.ok (.obj []))).2.1.jwksCacheTime <
        (get_jwks {} 0 (.ok (.obj []))).2.1.cacheTtl)
    ∧ (get_jwks ((get_jwks {} 0 (.ok (.obj []))).2.1) 1 (.ok (.obj []))).2.2 = true := by
  exact ⟨rfl, rfl, rfl, by decide, rfl⟩

/-- C5 as amended: provided the cached JWKS document is non-empty
(truthy), every call within the TTL of the last fetch returns it
unchanged with no network call; a call with an empty cache or at/after
TTL expiry re-fetches, and a fetch failure propagates as the error with
the cache state unchanged — the stale cached set is never returned as a
fallback. -/
theorem get_jwks_cache_spec (st : OktaAuthState) (now : Int)
    (fetch : Except PyErr Json) :
    (∀ c, st.jwksCache = some c → c.pyTruthy = true →
      now - st.jwksCacheTime < st.cacheTtl →
      get_jwks st now fetch = (.ok c, st, false))
    ∧ (st.jwksCache = none →
      (∀ e, fetch = .error e → get_jwks st now fetch = (.error e, st, true))
      ∧ (∀ j, fetch = .ok j → get_jwks st now fetch =
          (.ok j, { st with jwksCache := some j, jwksCacheTime := now }, true)))
    ∧ (st.cacheTtl ≤ now - st.jwksCacheTime →
      (∀ e, fetch = .error e → get_jwks st now fetch = (.error e, st, true))
      ∧ (∀ j, fetch = .ok j → get_jwks st now fetch =
          (.ok j, { st with jwksCache := some j, jwksCacheTime := now }, true))) := by
  refine ⟨?_, ?_, ?_⟩
  · intro c hc htruthy httl
    simp [get_jwks, hc, pyTruthyOpt, htruthy, httl]
  · intro hcache
    constructor
    · intro e he
      simp [get_jwks, hcache, pyTruthyOpt, he]
    · intro j hj
      simp [get_jwks, hcache, pyTruthyOpt, hj]
  · intro httl
    have hlt : ¬(now - st.jwksCacheTime < st.cacheTtl) := not_lt.mpr httl
    constructor
    · intro e he
      simp [get_jwks, hlt, he]
    · intro j hj
      simp [get_jwks, hlt, hj]

/-- Witness for the amended C5: a truthy cached document is served with
no network call even when the network would fail; at TTL expiry the
fetch failure propagates instead of the stale set. -/
theorem get_jwks_cache_spec_witness :
    get_jwks { jwksCache := some jwksDoc, jwksCacheTime := 0 } 10
        (.error .networkError) = (.ok jwksDoc, { jwksCache := some jwksDoc, jwksCacheTime := 0 }, false)
    ∧ get_jwks { jwksCache := some jwksDoc, jwksCacheTime := 0 } 3600
        (.error .networkError) =
      (.error .networkError, { jwksCache := some jwksDoc, jwksCacheTime := 0 }, true) := by
  constructor
  · exact (get_jwks_cache_spec { jwksCache := some jwksDoc, jwksCacheTime := 0 } 10
      (.error .networkError)).1 jwksDoc rfl rfl (by decide)
  · exact ((get_jwks_cache_spec { jwksCache := some jwksDoc, jwksCacheTime := 0 } 3600
      (.error .networkError)).2.2 (by decide)).1 .networkError rfl

end Progear

namespace Progear

/-! ## C6: the management-token cache -/

/-- Counterexample to C6 as stated: a successful (HTTP 200) call whose
granted `access_token` is the empty string populates the cache and sets
the expiry to fetch time + 3600 - 60 = 3540, yet the very next call at
time 1 — far before the cached expiry — performs another outbound
network call, because `self._management_token` is falsy and the
`if self._management_token and ...` test treats it as a cache miss. -/
theorem get_management_token_cached_counterexample :
    (get_management_token {} 0 mgmtEmptyTokenResp).1 = .ok (.str "")
    ∧ (get_management_token {} 0 mgmtEmptyTokenResp).2.2 = true
    ∧ (get_management_token {} 0 mgmtEmptyTokenResp).2.1 =
        { managementToken := some (.str ""), tokenExpiry := 3540 }
    ∧ ((1 : Int) < (get_management_token {} 0 mgmtEmptyTokenResp).2.1.tokenExpiry)
    ∧ (get_management_token ((get_management_token {} 0 mgmtEmptyTokenResp).2.1) 1
        mgmtEmptyTokenResp).2.2 = true := by
  exact ⟨rfl, rfl, rfl, by decide, rfl⟩

/-- C6 as amended: provided the cached access token is truthy
(non-empty), every call before the cached expiry time — fetch time plus
the grant's `expires_in` minus the 60-second margin — returns the same
cached token with no network call; the first call at or after that
expiry performs a new fetch, and a successful fetch stores the granted
token with the derived expiry. -/
theorem get_management_token_cache_spec (st : VaultState) (now : Int)
    (resp : Response) :
    (∀ tok, st.managementToken = some tok → tok.pyTruthy = true →
      now < st.tokenExpiry →
      get_management_token st now resp = (.ok tok, st, false))
    ∧ (st.tokenExpiry ≤ now → (get_management_token st now resp).2.2 = true)
    ∧ (st.tokenExpiry ≤ now → resp.status = 200 →
      ∀ tok n, resp.body.get "access_token" = some tok →
        pyDictGetD resp.body "expires_in" (some (.num 86400)) = some (.num n) →
        get_management_token st now resp =
          (.ok tok, { managementToken := some tok, tokenExpiry := now + n - 60 }, true)) := by
  refine ⟨?_, ?_, ?_⟩
  · intro tok htok htruthy hexp
    simp [get_management_token, htok, pyTruthyOpt, htruthy, hexp]
  · intro hexp
    have hc : (pyTruthyOpt st.managementToken && decide (now < st.tokenExpiry)) = false := by
      simp [not_lt.mpr hexp]
    unfold get_management_token
    rw [hc, if_neg Bool.false_ne_true]
    split
    · rfl
    · split
      · rfl
      · split <;> rfl
  · intro hexp hstatus tok n htok hd
    have hlt : ¬(now < st.tokenExpiry) := not_lt.mpr hexp
    simp [get_management_token, pyTruthyOpt, hlt, hstatus, htok, hd]

/-- Witness for the amended C6: a truthy cached token is served with no
network call before its expiry; at the expiry instant the fetch happens
and stores the newly granted token. -/
theorem get_management_token_cache_spec_witness :
    get_management_token { managementToken := some (.str "mgmt-1"), tokenExpiry := 3540 } 3539
        ⟨500, .null⟩ =
      (.ok (.str "mgmt-1"), { managementToken := some (.str "mgmt-1"), tokenExpiry := 3540 }, false)
    ∧ (get_management_token { managementToken := some (.str "mgmt-1"), tokenExpiry := 3540 } 3540
        ⟨500, .null⟩).2.2 = true
    ∧ get_management_token { managementToken := some (.str "mgmt-1"), tokenExpiry := 3540 } 3540
        ⟨200, .obj [("access_token", .str "mgmt-2"), ("expires_in", .num 7200)]⟩ =
      (.ok (.str "mgmt-2"), { managementToken := some (.str "mgmt-2"), tokenExpiry := 3540 + 7200 - 60 }, true) := by
  refine ⟨?_, ?_, ?_⟩
  · exact (get_management_token_cache_spec
      { managementToken := some (.str "mgmt-1"), tokenExpiry := 3540 } 3539 ⟨500, .null⟩).1
      (.str "mgmt-1") rfl rfl (by decide)
  · exact (get_management_token_cache_spec
      { managementToken := some (.str "mgmt-1"), tokenExpiry := 3540 } 3540 ⟨500, .null⟩).2.1
      (by decide)
  · exact (get_management_token_cache_spec
      { managementToken := some (.str "mgmt-1"), tokenExpiry := 3540 } 3540
      ⟨200, .obj [("access_token", .str "mgmt-2"), ("expires_in", .num 7200)]⟩).2.2
      (by decide) rfl (.str "mgmt-2") 7200 rfl rfl

end Progear

namespace Progear

/-! ## C7: the denial taxonomy of `get_salesforce_token` -/

/-- C7: once the vault credential step has succeeded (a vault token was
supplied or the management-token fetch returned one — its failure mode
is specified separately as fatal), `get_salesforce_token` always returns
a structured result and never raises, classifying the lookup in priority
order: `user_not_found` when the vault user lookup fails (non-200),
`salesforce_not_connected` when no linked identity's provider equals the
configured connection name, `no_token` when the matching identity has no
(truthy) access-token value, and a success result carrying exactly the
matching identity's tokens otherwise. -/
theorem get_salesforce_token_denial_taxonomy
    (cfg : Settings) (st : VaultState) (now : Int) (vaultToken : Option String)
    (mgmtResp userResp : Response)
    (hstep : (vaultTokenStep st now vaultToken mgmtResp).1 = .ok ()) :
    (get_salesforce_token cfg st now vaultToken mgmtResp userResp).1 =
      .ok (salesforceLookup cfg userResp)
    ∧ (userResp.status ≠ 200 →
      salesforceLookup cfg userResp =
        { success := false, error := some "user_not_found"
          error_description := some "Could not find user in Auth0" })
    ∧ (userResp.status = 200 →
      (userIdentities userResp.body).find? (isSalesforceIdentity cfg) = none →
      salesforceLookup cfg userResp =
        { success := false, error := some "salesforce_not_connected"
          error_description := some "User has not connected their Salesforce account" })
    ∧ (∀ identity, userResp.status = 200 →
      (userIdentities userResp.body).find? (isSalesforceIdentity cfg) = some identity →
      pyTruthyOpt (identity.get "access_token") = false →
      salesforceLookup cfg userResp =
        { success := false, error := some "no_token"
          error_description := some "No Salesforce token available" })
    ∧ (∀ identity, userResp.status = 200 →
      (userIdentities userResp.body).find? (isSalesforceIdentity cfg) = some identity →
      pyTruthyOpt (identity.get "access_token") = true →
      salesforceLookup cfg userResp =
        { success := true
          access_token := identity.get "access_token"
          refresh_token := identity.get "refresh_token"
          instance_url := some cfg.salesforce_instance_url }) := by
  refine ⟨?_, ?_, ?_, ?_, ?_⟩
  · unfold get_salesforce_token
    rcases h : vaultTokenStep st now vaultToken mgmtResp with ⟨r, st', net⟩
    rw [h] at hstep
    simp only at hstep
    subst hstep
    rfl
  · intro hstatus
    simp [salesforceLookup, hstatus]
  · intro hstatus hfind
    simp [salesforceLookup, hstatus, hfind]
  · intro identity hstatus hfind hfalsy
    simp [salesforceLookup, hstatus, hfind, hfalsy]
  · intro identity hstatus hfind htruthy
    simp [salesforceLookup, hstatus, hfind, htruthy]

/-- Witness for C7: all four outcomes at concrete lookup responses,
with the vault step served from the warm cache. -/
theorem get_salesforce_token_denial_taxonomy_witness :
    (get_salesforce_token {} warmVaultState 0 none ⟨500, .null⟩ ⟨404, .null⟩).1 =
      .ok { success := false, error := some "user_not_found"
            error_description := some "Could not find user in Auth0" }
    ∧ (get_salesforce_token {} warmVaultState 0 none ⟨500, .null⟩
        ⟨200, .obj [("identities", .arr [.obj [("provider", .str "google-oauth2")]])]⟩).1 =
      .ok { success := false, error := some "salesforce_not_connected"
            error_description := some "User has not connected their Salesforce account" }
    ∧ (get_salesforce_token {} warmVaultState 0 none ⟨500, .null⟩
        ⟨200, .obj [("identities", .arr [.obj [("provider", .str "salesforce")]])]⟩).1 =
      .ok { success := false, error := some "no_token"
            error_description := some "No Salesforce token available" }
    ∧ (get_salesforce_token {} warmVaultState 0 none ⟨500, .null⟩
        ⟨200, .obj [("identities", .arr [sfIdentityWithToken])]⟩).1 =
      .ok { success := true, access_token := some (.str "sf-at")
            refresh_token := some (.str "sf-rt")
            instance_url := some ({} : Settings).salesforce_instance_url } := by
  refine ⟨?_, ?_, ?_, ?_⟩
  · have h := get_salesforce_token_denial_taxonomy {} warmVaultState 0 none ⟨500, .null⟩
      ⟨404, .null⟩ rfl
    rw [h.1, h.2.1 (by decide)]
  · have h := get_salesforce_token_denial_taxonomy {} warmVaultState 0 none ⟨500, .null⟩
      ⟨200, .obj [("identities", .arr [.obj [("provider", .str "google-oauth2")]])]⟩ rfl
    rw [h.1, h.2.2.1 rfl rfl]
  · have h := get_salesforce_token_denial_taxonomy {} warmVaultState 0 none ⟨500, .null⟩
      ⟨200, .obj [("identities", .arr [.obj [("provider", .str "salesforce")]])]⟩ rfl
    rw [h.1, h.2.2.2.1 (.obj [("provider", .str "salesforce")]) rfl rfl rfl]
  · have h := get_salesforce_token_denial_taxonomy {} warmVaultState 0 none ⟨500, .null⟩
      ⟨200, .obj [("identities", .arr [sfIdentityWithToken])]⟩ rfl
    rw [h.1, h.2.2.2.2 sfIdentityWithToken rfl rfl rfl]
    rfl

/-! ## C8: unknown user in the vault search -/

/-- C8: for every vault search response with zero records (the vault
does the subject matching server-side, so "no user matching the
subject" is the empty record list), `get_user_id_from_okta_sub` returns
`None` and does not raise — given that the management-token step it
performs first succeeded. -/
theorem get_user_id_from_okta_sub_zero_records
    (st : VaultState) (now : Int) (mgmtResp searchResp : Response) (tok : Json)
    (hmgmt : (get_management_token st now mgmtResp).1 = .ok tok)
    (hstatus : searchResp.status = 200)
    (hempty : searchResp.body = .arr []) :
    (get_user_id_from_okta_sub st now mgmtResp searchResp).1 = .ok none := by
  unfold get_user_id_from_okta_sub
  rcases h : get_management_token st now mgmtResp with ⟨r, st', net⟩
  rw [h] at hmgmt
  simp only at hmgmt
  subst hmgmt
  simp [hstatus, hempty]

/-- Witness for C8: a warm management-token cache and a 200 search
response whose body is the empty JSON array. -/
theorem get_user_id_from_okta_sub_zero_records_witness :
    (get_user_id_from_okta_sub warmVaultState 0 ⟨500, .null⟩ ⟨200, .arr []⟩).1 =
      .ok none := by
  exact get_user_id_from_okta_sub_zero_records warmVaultState 0 ⟨500, .null⟩ ⟨200, .arr []⟩
    (.str "mgmt-tok") rfl rfl rfl

/-! ## C10: the inventory scope gate defaults -/

/-- C10: constructing `InventoryTools` with no scope list or an empty
scope list selects the full default scope set, so `_has_scope` answers
true for every inventory scope and the `_execute_tool` gate denies no
tool invocation for a missing scope — the gate is fail-open by
default. -/
theorem inventory_scope_gate_fail_open
    (scopes : Option (List String))
    (h : scopes = none ∨ scopes = some []) :
    initUserScopes scopes = defaultInventoryScopes
    ∧ (∀ s ∈ defaultInventoryScopes, has_scope (initUserScopes scopes) s = true)
    ∧ (∀ r ∈ inventoryToolRequiredScopes,
        scopeDenied (initUserScopes scopes) (some r) = false) := by
  rcases h with h | h <;> subst h <;> exact ⟨rfl, by decide, by decide⟩

/-- Witness for C10 at both fail-open constructions. -/
theorem inventory_scope_gate_fail_open_witness :
    initUserScopes none = defaultInventoryScopes
    ∧ has_scope (initUserScopes (some [])) "inventory:write" = true
    ∧ scopeDenied (initUserScopes none) (some "inventory:alert") = false := by
  refine ⟨?_, ?_, ?_⟩
  · exact (inventory_scope_gate_fail_open none (Or.inl rfl)).1
  · exact (inventory_scope_gate_fail_open (some []) (Or.inr rfl)).2.1
      "inventory:write" (by decide)
  · exact (inventory_scope_gate_fail_open none (Or.inl rfl)).2.2
      "inventory:alert" (by decide)

end Progear
